import Mathlib

/-!
Space shooter: round state and collision handlers of `src/main.js`

The module-level variables of `main.js` (`score`, `lives`, the text objects,
the player sprite, the two groups) become the fields of one record,
`GameState`, and every handler becomes a function from state to state.

Conventions of the embedding:

* JavaScript numbers that hold counters (`score`, `lives`) are `Int`; the
  handlers only add 10 or subtract 1, so every value a round can produce is an
  exactly representable integer.  Coordinates are `Int` as well.
* `'Score: ' + score` is `"Score: " ++ toString score`.
* A game object passed to a handler is named by its index in its group
  (`laserGroup.getChildren()`, `enemyGroup.getChildren()`); an index outside
  the group names no object and the writes through it are lost.
* Calls into the audio and particle systems are appended to `calls`.
* Phaser's own objects are modelled after their documented behaviour:
  `setActive`, `setVisible`, `disableBody`, `enableBody`, `countActive`,
  `clear`, `createMultiple`, `Key.isDown` and `Keyboard.JustDown`.
-/

namespace SpaceGame

/-! ## Game objects -/

/-- An arcade sprite: position, velocity and the three switches the handlers
flip (`active`, `visible`, `body.enable`). -/
structure Entity where
  x : Int
  y : Int
  vx : Int
  vy : Int
  active : Bool
  visible : Bool
  bodyEnabled : Bool
deriving DecidableEq, Repr

/-- A text object: its string and whether it is shown. -/
structure Text where
  text : String
  visible : Bool
deriving DecidableEq, Repr

/-- A keyboard key as Phaser keeps it: `isDown` and the `_justDown` latch. -/
structure Key where
  isDown : Bool
  justDown : Bool
deriving DecidableEq, Repr

/-- The keys of `createCursorKeys()` that `update` reads. -/
structure CursorKeys where
  left : Key
  right : Key
  space : Key
deriving DecidableEq, Repr

/-- The three keys `update` looks at. -/
inductive KeyCode where
  | left
  | right
  | space
deriving DecidableEq, Repr

/-- A browser keyboard event: `keydown` (`down = true`) or `keyup` for one
key. -/
structure KeyEvent where
  code : KeyCode
  down : Bool
deriving DecidableEq, Repr

/-- A call into a collaborator that leaves no mark on the round state. -/
inductive Call where
  | play (sound : String)
  | explode (count : Nat) (x y : Int)
  | fireLaser
deriving DecidableEq, Repr

/-- Position and velocity, what a placement rule decides. -/
structure Motion where
  x : Int
  y : Int
  vx : Int
  vy : Int
deriving DecidableEq, Repr

/-- Functions of the repository that `main.js` calls and that live in other
files. -/
structure Host where
  /-- Modelled from the spec: `move(enemy, scene)` is not in `main.js`; the
  spec knows it as the placement rule of the enemy pool, so it is a parameter
  that picks position and velocity and cannot touch the flags. -/
  move : Entity → Motion
  /-- Modelled from the spec: `fireLaser(laserGroup, player)` is not in
  `main.js`; it takes a free projectile if there is one and otherwise does
  nothing, so it is a parameter that maps the laser group to a laser group. -/
  fireLaser : List Entity → Entity → List Entity
  /-- Modelled from the spec: `checkOutOfBounds(laserGroup, scene)` is not in
  `main.js`; it retires projectiles that left the screen. -/
  checkOutOfBounds : List Entity → List Entity
  /-- Modelled from the spec: `enemyCheckOutOfBounds(enemyGroup, scene)` is
  not in `main.js`; it deals with enemies that left the screen. -/
  enemyCheckOutOfBounds : List Entity → List Entity

/-- Everything `main.js` keeps between two calls.  `cursor` holds the key
objects of the keyboard plugin: there are none until `update` first calls
`createCursorKeys()`. -/
structure GameState where
  player : Entity
  laserGroup : List Entity
  enemyGroup : List Entity
  score : Int
  lives : Int
  scoreText : Text
  livesText : Text
  scoreMessageText : Text
  gameOverText : Text
  youWonText : Text
  playAgainButton : Text
  backgroundColor : String
  cursor : Option CursorKeys
  calls : List Call

/-! ## Phaser primitives -/

/-- `obj.setActive(v)`. -/
def Entity.setActive (e : Entity) (v : Bool) : Entity := { e with active := v }

/-- `obj.setVisible(v)`. -/
def Entity.setVisible (e : Entity) (v : Bool) : Entity := { e with visible := v }

/-- `obj.disableBody(disableGameObject, hideGameObject)`: the body is stopped
and switched off, and the object is deactivated and hidden on request. -/
def Entity.disableBody (e : Entity) (disableGameObject hideGameObject : Bool) : Entity :=
  { e with
    vx := 0
    vy := 0
    bodyEnabled := false
    active := if disableGameObject then false else e.active
    visible := if hideGameObject then false else e.visible }

/-- `obj.enableBody(reset, x, y, enableGameObject, showGameObject)`. -/
def Entity.enableBody (e : Entity) (reset : Bool) (x y : Int)
    (enableGameObject showGameObject : Bool) : Entity :=
  let e1 : Entity := if reset then { e with x := x, y := y, vx := 0, vy := 0 } else e
  { e1 with
    bodyEnabled := true
    active := if enableGameObject then true else e1.active
    visible := if showGameObject then true else e1.visible }

/-- `obj.setPosition(x, y)`. -/
def Entity.setPosition (e : Entity) (x y : Int) : Entity := { e with x := x, y := y }

/-- `obj.setVelocityX(v)`. -/
def Entity.setVelocityX (e : Entity) (v : Int) : Entity := { e with vx := v }

/-- `text.setText(t)`. -/
def Text.setText (t : Text) (str : String) : Text := { t with text := str }

/-- `text.setVisible(v)`. -/
def Text.setVisible (t : Text) (v : Bool) : Text := { t with visible := v }

/-- `group.countActive(true)`: how many children are active. -/
def countActive (g : List Entity) : Nat := g.countP (fun e => e.active)

/-- The body of the three-line idiom `setActive(false); setVisible(false);
disableBody(true, true)` used on lasers, enemies and the player. -/
def Entity.retire (e : Entity) : Entity :=
  ((e.setActive false).setVisible false).disableBody true true

/-- Applying a placement to a sprite. -/
def Entity.place (e : Entity) (m : Motion) : Entity :=
  { e with x := m.x, y := m.y, vx := m.vx, vy := m.vy }

/-- `group.getChildren().forEach(enemy => move(enemy, scene))`. -/
def moveAll (h : Host) (g : List Entity) : List Entity :=
  g.map (fun e => e.place (h.move e))

/-- `group.createMultiple` with `repeat: 99` and one key and frame: one
hundred children at `setXY`, active and visible (Phaser's defaults, which the
config repeats), each with an enabled body. -/
def createMultiple (x y : Int) : List Entity :=
  List.replicate (99 + 1)
    { x := x, y := y, vx := 0, vy := 0, active := true, visible := true, bodyEnabled := true }

/-- Whether the object at index `i` of group `g` exists and is active. -/
def isActiveAt (g : List Entity) (i : Nat) : Bool :=
  match g[i]? with
  | some e => e.active
  | none => false

/-! ## The handlers of `main.js` -/

/-- The speed constant `playerSpeed`. -/
def playerSpeed : Int := 200

/-- State after `create()`.  The constructors `LaserGroup` and `EnemyGroup`
live in other files; the groups they build are the two arguments. -/
def create (h : Host) (lasers enemies : List Entity) : GameState :=
  { player := { x := 300, y := 700, vx := 0, vy := 0,
                active := true, visible := true, bodyEnabled := true }
    laserGroup := lasers
    enemyGroup := moveAll h enemies
    score := 0
    lives := 3
    scoreText := { text := "Score: 0", visible := true }
    livesText := { text := "Lives: 3", visible := true }
    gameOverText := { text := "Game Over", visible := false }
    youWonText := { text := "You Won", visible := false }
    scoreMessageText := { text := "", visible := false }
    playAgainButton := { text := "Play Again", visible := false }
    backgroundColor := "rgba(0,0,0,0)"
    cursor := none
    calls := [] }

/-- Coordinates of the object at index `i`, read for the particle burst. -/
def positionAt (g : List Entity) (i : Nat) : Int × Int :=
  match g[i]? with
  | some e => (e.x, e.y)
  | none => (0, 0)

/-- `laserCollision(laser, enemy, scene)`, lines 135-161. -/
def laserCollision (s : GameState) (laser enemy : Nat) : GameState :=
  let p := positionAt s.enemyGroup enemy
  let calls := s.calls ++ [Call.play "enemyDestroyed", Call.explode 20 p.1 p.2]
  let lasers := s.laserGroup.modify Entity.retire laser
  let enemies := s.enemyGroup.modify Entity.retire enemy
  let score := s.score + 10
  let scoreText := s.scoreText.setText ("Score: " ++ toString score)
  let s1 : GameState :=
    { s with calls := calls, laserGroup := lasers, enemyGroup := enemies,
             score := score, scoreText := scoreText }
  if countActive s1.enemyGroup = 0 then
    { s1 with
      youWonText := s1.youWonText.setVisible true
      playAgainButton := s1.playAgainButton.setVisible true
      scoreText := s1.scoreText.setVisible false
      livesText := s1.livesText.setVisible false }
  else s1

/-- `playerEnemyCollision(player, enemy, scene)`, lines 163-204.  The handler
never reads or writes its `enemy` argument. -/
def playerEnemyCollision (s : GameState) (_enemy : Nat) : GameState :=
  let calls := s.calls ++ [Call.play "playerDestroyed", Call.explode 40 s.player.x s.player.y]
  let lives := s.lives - 1
  let livesText := s.livesText.setText ("Lives: " ++ toString lives)
  let s1 : GameState := { s with calls := calls, lives := lives, livesText := livesText }
  if lives ≤ 0 then
    { s1 with
      gameOverText := s1.gameOverText.setVisible true
      scoreMessageText :=
        (s1.scoreMessageText.setText ("Your score was: " ++ toString s1.score)).setVisible true
      playAgainButton := s1.playAgainButton.setVisible true
      player := s1.player.retire
      enemyGroup := s1.enemyGroup.map Entity.retire
      scoreText := s1.scoreText.setVisible false
      livesText := s1.livesText.setVisible false
      backgroundColor := "#0000ff" }
  else
    { s1 with player := s1.player.setPosition 300 700 }

/-- `restartGame(scene)`, lines 206-238.  `rx` and `ry` are the two values
`Phaser.Math.Between` returns for the `setXY` of the new enemies. -/
def restartGame (h : Host) (s : GameState) (rx ry : Int) : GameState :=
  let score : Int := 0
  let lives : Int := 3
  let player := ((s.player.setActive true).setVisible true)
  let player := player.enableBody true player.x player.y true true
  { s with
    score := score
    lives := lives
    scoreText := (s.scoreText.setText ("Score: " ++ toString score)).setVisible true
    livesText := (s.livesText.setText ("Lives: " ++ toString lives)).setVisible true
    player := player
    enemyGroup := moveAll h (createMultiple rx ry)
    gameOverText := s.gameOverText.setVisible false
    youWonText := s.youWonText.setVisible false
    scoreMessageText := s.scoreMessageText.setVisible false
    playAgainButton := s.playAgainButton.setVisible false
    backgroundColor := "#000000" }

/-! ## Sequences of handler calls -/

/-- One overlap callback. -/
inductive Collision where
  | laser (laser enemy : Nat)
  | player (enemy : Nat)
deriving DecidableEq, Repr

/-- Running one overlap callback. -/
def collide (s : GameState) : Collision → GameState
  | .laser l e => laserCollision s l e
  | .player e => playerEnemyCollision s e

/-- Running a sequence of overlap callbacks in the order given. -/
def collideAll (s : GameState) (cs : List Collision) : GameState :=
  cs.foldl collide s

/-- The number of `laserCollision` calls in a sequence. -/
def laserHits (cs : List Collision) : Nat :=
  cs.countP (fun c => match c with
    | .laser _ _ => true
    | .player _ => false)

/-- A callback the scene can receive between two frames: an overlap, or a
click on the play-again button (`restartGame` with the two random numbers it
draws). -/
inductive Event where
  | collision (c : Collision)
  | restart (rx ry : Int)
deriving DecidableEq, Repr

/-- Running one callback. -/
def step (h : Host) (s : GameState) : Event → GameState
  | .collision c => collide s c
  | .restart rx ry => restartGame h s rx ry

/-- Running a sequence of callbacks in the order given. -/
def run (h : Host) (s : GameState) (evs : List Event) : GameState :=
  evs.foldl (step h) s

/-- The enemy a collision is about. -/
def Collision.enemy : Collision → Nat
  | .laser _ e => e
  | .player e => e

/-- The physics world reports an overlap only for an enemy that is active in
the current state; a click is always possible. -/
def reported (s : GameState) : Event → Bool
  | .collision c => isActiveAt s.enemyGroup c.enemy
  | .restart _ _ => true

/-- Every callback of the sequence is one the physics world can report in the
state it is delivered in. -/
def reportedRun (h : Host) (s : GameState) : List Event → Bool
  | [] => true
  | ev :: evs => reported s ev && reportedRun h (step h s ev) evs

/-- A state a round starts from: the result of `create`, or of `restartGame`
on any state. -/
def Start (h : Host) (s0 : GameState) : Prop :=
  (∃ lasers enemies, s0 = create h lasers enemies) ∨
  (∃ s rx ry, s0 = restartGame h s rx ry)

/-! ## Phases, read off the user-interface -/

/-- The round is won: the "You Won" text is on screen. -/
def Won (s : GameState) : Prop := s.youWonText.visible = true

/-- The round is lost: the "Game Over" text is on screen. -/
def Lost (s : GameState) : Prop := s.gameOverText.visible = true

/-- The round is being played: the end-of-round texts and the button are
hidden and the score and lives are shown. -/
def Playing (s : GameState) : Prop :=
  s.gameOverText.visible = false ∧ s.youWonText.visible = false ∧
  s.scoreMessageText.visible = false ∧ s.playAgainButton.visible = false ∧
  s.scoreText.visible = true ∧ s.livesText.visible = true

instance (s : GameState) : Decidable (Won s) := by unfold Won; infer_instance

instance (s : GameState) : Decidable (Lost s) := by unfold Lost; infer_instance

instance (s : GameState) : Decidable (Playing s) := by unfold Playing; infer_instance

/-! ## The keyboard and `update` -/

/-- Phaser's `Key.onDown`: a key that was up goes down and arms the latch; a
repeat event on a key already down changes nothing. -/
def Key.onDown (k : Key) : Key :=
  if k.isDown then k else { isDown := true, justDown := true }

/-- Phaser's `Key.onUp`: the key is up and the latch is cleared. -/
def Key.onUp (_k : Key) : Key := { isDown := false, justDown := false }

/-- `Phaser.Input.Keyboard.JustDown(key)`: reads the latch and clears it. -/
def JustDown (k : Key) : Bool × Key :=
  if k.justDown then (true, { k with justDown := false }) else (false, k)

/-- One keyboard event arriving at a key object. -/
def Key.handle (k : Key) (down : Bool) : Key :=
  if down then k.onDown else k.onUp

/-- One keyboard event arriving at the key object it names. -/
def CursorKeys.handle (c : CursorKeys) (ev : KeyEvent) : CursorKeys :=
  match ev.code with
  | .left => { c with left := c.left.handle ev.down }
  | .right => { c with right := c.right.handle ev.down }
  | .space => { c with space := c.space.handle ev.down }

/-- The keyboard plugin replays every event queued since the last frame, in
order, on the key objects that exist; events for keys not yet created are
dropped. -/
def replayKeys (c : Option CursorKeys) (evs : List KeyEvent) : Option CursorKeys :=
  match c with
  | none => none
  | some c => some (evs.foldl CursorKeys.handle c)

/-- `this.input.keyboard.createCursorKeys()`: the key objects of the plugin,
created up and unlatched on the first call. -/
def createCursorKeys (c : Option CursorKeys) : CursorKeys :=
  match c with
  | some c => c
  | none => { left := { isDown := false, justDown := false }
              right := { isDown := false, justDown := false }
              space := { isDown := false, justDown := false } }

/-- `update()`, lines 114-133. -/
def update (h : Host) (s : GameState) : GameState :=
  let cursor := createCursorKeys s.cursor
  let player :=
    if cursor.right.isDown then s.player.setVelocityX playerSpeed
    else if cursor.left.isDown then s.player.setVelocityX (-playerSpeed)
    else s.player.setVelocityX 0
  let jd : Bool × Key :=
    if cursor.space.isDown then JustDown cursor.space else (false, cursor.space)
  let s2 : GameState :=
    { s with player := player, cursor := some { cursor with space := jd.2 } }
  let s3 : GameState :=
    if jd.1 then
      if s2.lives > 0 then
        { s2 with
          laserGroup := h.fireLaser s2.laserGroup s2.player
          calls := s2.calls ++ [Call.fireLaser, Call.play "playerLaser"] }
      else s2
    else s2
  { s3 with
    laserGroup := h.checkOutOfBounds s3.laserGroup
    enemyGroup := h.enemyCheckOutOfBounds s3.enemyGroup }

/-- One frame as the scene sees it: the keyboard events queued since the
frame before, and the callbacks delivered before `update` runs. -/
structure Frame where
  keys : List KeyEvent
  events : List Event

/-- The state `update` is called in: the queued keyboard events replayed,
then the callbacks of the frame. -/
def beforeUpdate (h : Host) (s : GameState) (f : Frame) : GameState :=
  run h { s with cursor := replayKeys s.cursor f.keys } f.events

/-- One frame: callbacks, then `update`. -/
def tick (h : Host) (s : GameState) (f : Frame) : GameState :=
  update h (beforeUpdate h s f)

/-- A sequence of frames. -/
def ticks (h : Host) (s : GameState) (fs : List Frame) : GameState :=
  fs.foldl (tick h) s

/-- Whether `update`, called in this state, finds the space key down
(`cursor.space.isDown`). -/
def spaceDown (s : GameState) : Bool := (createCursorKeys s.cursor).space.isDown

/-- The latch of the space key as `update`, called in this state, finds it. -/
def spaceLatch (s : GameState) : Bool := (createCursorKeys s.cursor).space.justDown

/-- The `keyup` event of the space key. -/
def spaceRelease : KeyEvent := { code := KeyCode.space, down := false }

/-- The `keydown` event of the space key. -/
def spacePress : KeyEvent := { code := KeyCode.space, down := true }

/-- The number of `fireLaser` calls recorded. -/
def fireCount (cs : List Call) : Nat := cs.count Call.fireLaser

/-! ## Invariants of the round -/

/-- What every sequence of handler calls keeps true: lives never exceeds 3,
a hidden game-over text means a life is left, and once either end-of-round
text is shown no enemy is active. -/
def RoundInv (s : GameState) : Prop :=
  s.lives ≤ 3 ∧
  (s.gameOverText.visible = false → 1 ≤ s.lives) ∧
  (s.youWonText.visible = true ∨ s.gameOverText.visible = true →
    countActive s.enemyGroup = 0)

/-- What holds in addition when overlaps are reported for active enemies
only: lives is not negative and the two end-of-round texts are not both
shown. -/
def HostInv (s : GameState) : Prop :=
  RoundInv s ∧ 0 ≤ s.lives ∧ ¬ (Won s ∧ Lost s)

/-- The laser hits of a list of (laser, enemy) pairs, as overlap callbacks. -/
def hitsOf (hits : List (Nat × Nat)) : List Collision :=
  hits.map (fun p => Collision.laser p.1 p.2)

/-! ## Small fixtures for the closed examples -/

/-- A host whose placement rule keeps every sprite where it is and whose
projectile pool is always exhausted. -/
def idleHost : Host :=
  { move := fun e => { x := e.x, y := e.y, vx := e.vx, vy := e.vy }
    fireLaser := fun g _ => g
    checkOutOfBounds := fun g => g
    enemyCheckOutOfBounds := fun g => g }

/-- An active, visible sprite at the given place. -/
def sprite (x y : Int) : Entity :=
  { x := x, y := y, vx := 0, vy := 0, active := true, visible := true, bodyEnabled := true }

/-- A scene with one laser and two enemies. -/
def smallScene : GameState :=
  create idleHost [sprite 300 650] [sprite 100 100, sprite 200 100]

/-- A frame in which nothing happens. -/
def quietFrame : Frame := { keys := [], events := [] }

/-- A frame before which the space key was pressed. -/
def pressFrame : Frame := { keys := [spacePress], events := [] }

/-- A frame before which the space key was released and pressed again. -/
def repressFrame : Frame := { keys := [spaceRelease, spacePress], events := [] }

/-- A frame before which a held space key sent a repeat `keydown`. -/
def repeatFrame : Frame := { keys := [spacePress, spacePress], events := [] }

/-! ## Score (C1) -/

theorem laserCollision_score (s : GameState) (l e : Nat) :
    (laserCollision s l e).score = s.score + 10 := by
  unfold laserCollision
  dsimp only
  split <;> rfl

theorem playerEnemyCollision_score (s : GameState) (e : Nat) :
    (playerEnemyCollision s e).score = s.score := by
  unfold playerEnemyCollision
  dsimp only
  split <;> rfl

theorem collideAll_score (cs : List Collision) (s : GameState) :
    (collideAll s cs).score = s.score + 10 * (laserHits cs : Int) := by
  induction cs generalizing s with
  | nil => simp [collideAll, laserHits]
  | cons c cs ih =>
    have hstep : collideAll s (c :: cs) = collideAll (collide s c) cs := rfl
    rw [hstep, ih]
    cases c with
    | laser l e =>
      simp only [collide, laserCollision_score, laserHits, List.countP_cons]
      push_cast
      ring
    | player e =>
      simp only [collide, playerEnemyCollision_score, laserHits, List.countP_cons]
      simp

theorem collideAll_cons (s : GameState) (c : Collision) (cs : List Collision) :
    collideAll s (c :: cs) = collideAll (collide s c) cs := rfl

/-- C1: after any sequence of `laserCollision` and `playerEnemyCollision`
calls the score is the starting score plus ten times the number of
`laserCollision` calls; one `laserCollision` adds exactly 10, one
`playerEnemyCollision` adds nothing, the score never goes down, and from the
score 0 of `create` ten laser hits give 100 and one hundred give 1000, with
player hits in between or not. -/
theorem score_counts_laser_hits (h : Host) (s : GameState) (cs : List Collision)
    (lasers enemies : List Entity) :
    (collideAll s cs).score = s.score + 10 * (laserHits cs : Int) ∧
    (∀ l e, (laserCollision s l e).score = s.score + 10) ∧
    (∀ e, (playerEnemyCollision s e).score = s.score) ∧
    s.score ≤ (collideAll s cs).score ∧
    (collideAll (create h lasers enemies)
      ((List.range 10).map (fun i => Collision.laser i i))).score = 100 ∧
    (collideAll (create h lasers enemies)
      ((List.range 10).flatMap (fun i => [Collision.laser 0 i, Collision.player i]))).score = 100 ∧
    (collideAll (create h lasers enemies)
      ((List.range 100).map (fun i => Collision.laser 0 i))).score = 1000 := by
  refine ⟨collideAll_score cs s, laserCollision_score s, playerEnemyCollision_score s, ?_,
    ?_, ?_, ?_⟩
  · rw [collideAll_score]
    have : (0 : Int) ≤ (laserHits cs : Int) := Int.ofNat_nonneg _
    omega
  · rw [collideAll_score]
    have : laserHits ((List.range 10).map (fun i => Collision.laser i i)) = 10 := by decide
    rw [this]
    rfl
  · rw [collideAll_score]
    have : laserHits ((List.range 10).flatMap
        (fun i => [Collision.laser 0 i, Collision.player i])) = 10 := by decide
    rw [this]
    rfl
  · rw [collideAll_score]
    have : laserHits ((List.range 100).map (fun i => Collision.laser 0 i)) = 100 := by
      simp [laserHits, List.countP_map]
      rfl
    rw [this]
    rfl

/-! ## Restart (C4) -/

theorem createMultiple_length (x y : Int) : (createMultiple x y).length = 100 := by
  simp [createMultiple]

theorem moveAll_length (h : Host) (g : List Entity) : (moveAll h g).length = g.length := by
  simp [moveAll]

theorem mem_moveAll_createMultiple (h : Host) (x y : Int) (e : Entity)
    (he : e ∈ moveAll h (createMultiple x y)) :
    e.active = true ∧ e.visible = true ∧ e.bodyEnabled = true := by
  simp only [moveAll, createMultiple, List.mem_map, List.mem_replicate] at he
  obtain ⟨a, ⟨_, ha⟩, rfl⟩ := he
  subst ha
  simp [Entity.place]

theorem countActive_eq_length (g : List Entity) (hg : ∀ e ∈ g, e.active = true) :
    countActive g = g.length := by
  unfold countActive
  rw [List.countP_eq_length]
  intro e he
  simpa using hg e he

/-- C4: whatever the state before it, `restartGame` leaves score 0 and lives
3, the texts "Score: 0" and "Lives: 3" on screen, the game-over text, the
you-won text, the score message and the play-again button hidden, a black
background, the player active and visible, and an enemy group of exactly one
hundred enemies, every one of them active and visible. -/
theorem restartGame_resets (h : Host) (s : GameState) (rx ry : Int) :
    (restartGame h s rx ry).score = 0 ∧
    (restartGame h s rx ry).lives = 3 ∧
    Playing (restartGame h s rx ry) ∧
    (restartGame h s rx ry).scoreText = { text := "Score: 0", visible := true } ∧
    (restartGame h s rx ry).livesText = { text := "Lives: 3", visible := true } ∧
    (restartGame h s rx ry).backgroundColor = "#000000" ∧
    (restartGame h s rx ry).player.active = true ∧
    (restartGame h s rx ry).player.visible = true ∧
    (restartGame h s rx ry).enemyGroup.length = 100 ∧
    (∀ e ∈ (restartGame h s rx ry).enemyGroup, e.active = true ∧ e.visible = true) ∧
    countActive (restartGame h s rx ry).enemyGroup = 100 := by
  have hmem : ∀ e ∈ (restartGame h s rx ry).enemyGroup,
      e.active = true ∧ e.visible = true := fun e he =>
    ⟨(mem_moveAll_createMultiple h rx ry e he).1, (mem_moveAll_createMultiple h rx ry e he).2.1⟩
  have hlen : (restartGame h s rx ry).enemyGroup.length = 100 := by
    show (moveAll h (createMultiple rx ry)).length = 100
    rw [moveAll_length, createMultiple_length]
  refine ⟨rfl, rfl, ⟨rfl, rfl, rfl, rfl, rfl, rfl⟩, ?_, ?_, rfl, rfl, rfl, hlen, hmem, ?_⟩
  · simp [restartGame, Text.setText, Text.setVisible]
    rfl
  · simp [restartGame, Text.setText, Text.setVisible]
    rfl
  · rw [countActive_eq_length _ (fun e he => (hmem e he).1), hlen]

/-! ## Player against enemy (C5, C6, C9) -/

theorem playerEnemyCollision_alive (s : GameState) (e : Nat) (hl : 2 ≤ s.lives) :
    playerEnemyCollision s e =
      { s with
        calls := s.calls ++
          [Call.play "playerDestroyed", Call.explode 40 s.player.x s.player.y]
        lives := s.lives - 1
        livesText := s.livesText.setText ("Lives: " ++ toString (s.lives - 1))
        player := s.player.setPosition 300 700 } := by
  unfold playerEnemyCollision
  have : ¬ (s.lives - 1 ≤ 0) := by omega
  simp only [this, if_false]

theorem playerEnemyCollision_dead (s : GameState) (e : Nat) (hl : s.lives ≤ 1) :
    playerEnemyCollision s e =
      { s with
        calls := s.calls ++
          [Call.play "playerDestroyed", Call.explode 40 s.player.x s.player.y]
        lives := s.lives - 1
        gameOverText := s.gameOverText.setVisible true
        scoreMessageText :=
          (s.scoreMessageText.setText ("Your score was: " ++ toString s.score)).setVisible true
        playAgainButton := s.playAgainButton.setVisible true
        player := s.player.retire
        enemyGroup := s.enemyGroup.map Entity.retire
        scoreText := s.scoreText.setVisible false
        livesText :=
          (s.livesText.setText ("Lives: " ++ toString (s.lives - 1))).setVisible false
        backgroundColor := "#0000ff" } := by
  unfold playerEnemyCollision
  have : s.lives - 1 ≤ 0 := by omega
  simp only [this, if_true]

/-- C5: in a Playing state with at least two lives, `playerEnemyCollision`
takes exactly one life, writes "Lives: " and the new number into the lives
text, puts the player at (300, 700) and leaves the round Playing: the
game-over text, the score message and the play-again button are still hidden,
the score and lives texts still shown, and the player's active and visible
flags are what they were; from three lives the result is two. -/
theorem playerEnemyCollision_keeps_playing (s : GameState) (e : Nat)
    (hP : Playing s) (hl : 2 ≤ s.lives) :
    (playerEnemyCollision s e).lives = s.lives - 1 ∧
    (playerEnemyCollision s e).livesText.text = "Lives: " ++ toString (s.lives - 1) ∧
    (playerEnemyCollision s e).player.x = 300 ∧
    (playerEnemyCollision s e).player.y = 700 ∧
    Playing (playerEnemyCollision s e) ∧
    (playerEnemyCollision s e).gameOverText.visible = false ∧
    (playerEnemyCollision s e).scoreMessageText.visible = false ∧
    (playerEnemyCollision s e).playAgainButton.visible = false ∧
    (playerEnemyCollision s e).scoreText.visible = true ∧
    (playerEnemyCollision s e).livesText.visible = true ∧
    (playerEnemyCollision s e).player.active = s.player.active ∧
    (playerEnemyCollision s e).player.visible = s.player.visible ∧
    (s.player.active = true → s.player.visible = true →
      (playerEnemyCollision s e).player.active = true ∧
      (playerEnemyCollision s e).player.visible = true) ∧
    (s.lives = 3 → (playerEnemyCollision s e).lives = 2) := by
  rw [playerEnemyCollision_alive s e hl]
  obtain ⟨h1, h2, h3, h4, h5, h6⟩ := hP
  refine ⟨rfl, rfl, rfl, rfl, ⟨h1, h2, h3, h4, h5, h6⟩, h1, h3, h4, h5, h6, rfl, rfl,
    fun ha hv => ⟨ha, hv⟩, ?_⟩
  intro h3l
  show s.lives - 1 = 2
  omega

theorem retire_flags (e : Entity) :
    e.retire.active = false ∧ e.retire.visible = false ∧ e.retire.bodyEnabled = false := by
  simp [Entity.retire, Entity.disableBody, Entity.setActive, Entity.setVisible]

/-- C6: a `playerEnemyCollision` that takes the last life (lives = 1
before) ends the round as Lost: lives is 0, the game-over text, the score
message and the play-again button are shown, the score message reads
"Your score was: " and the score, which the call does not change, the
player and every enemy of the group are inactive and invisible, the score
and lives texts are hidden and the background is '#0000ff'.  And whenever
lives is still positive after the call the game-over text is left exactly as
it was, so the handler shows it only when the decrement reaches 0 or below. -/
theorem playerEnemyCollision_last_life (s : GameState) (e : Nat) :
    (s.lives = 1 →
      (playerEnemyCollision s e).lives = 0 ∧
      Lost (playerEnemyCollision s e) ∧
      (playerEnemyCollision s e).gameOverText.visible = true ∧
      (playerEnemyCollision s e).scoreMessageText =
        { text := "Your score was: " ++ toString s.score, visible := true } ∧
      (playerEnemyCollision s e).score = s.score ∧
      (playerEnemyCollision s e).playAgainButton.visible = true ∧
      (playerEnemyCollision s e).player.active = false ∧
      (playerEnemyCollision s e).player.visible = false ∧
      (playerEnemyCollision s e).enemyGroup.length = s.enemyGroup.length ∧
      (∀ en ∈ (playerEnemyCollision s e).enemyGroup,
        en.active = false ∧ en.visible = false) ∧
      (playerEnemyCollision s e).scoreText.visible = false ∧
      (playerEnemyCollision s e).livesText.visible = false ∧
      (playerEnemyCollision s e).backgroundColor = "#0000ff") ∧
    (0 < (playerEnemyCollision s e).lives →
      (playerEnemyCollision s e).gameOverText = s.gameOverText) ∧
    ((playerEnemyCollision s e).gameOverText.visible ≠ s.gameOverText.visible →
      (playerEnemyCollision s e).lives ≤ 0) := by
  refine ⟨fun h1 => ?_, fun hpos => ?_, fun hne => ?_⟩
  · rw [playerEnemyCollision_dead s e (by omega)]
    refine ⟨by show s.lives - 1 = 0; omega, rfl, rfl, rfl, rfl, rfl,
      (retire_flags _).1, (retire_flags _).2.1, by simp, ?_, rfl, rfl, rfl⟩
    intro en hen
    simp only [List.mem_map] at hen
    obtain ⟨a, _, rfl⟩ := hen
    exact ⟨(retire_flags a).1, (retire_flags a).2.1⟩
  · by_cases hl : 2 ≤ s.lives
    · rw [playerEnemyCollision_alive s e hl]
    · rw [playerEnemyCollision_dead s e (by omega)] at hpos
      have : s.lives - 1 > 0 := hpos
      omega
  · by_cases hl : 2 ≤ s.lives
    · rw [playerEnemyCollision_alive s e hl] at hne
      exact absurd rfl hne
    · rw [playerEnemyCollision_dead s e (by omega)]
      show s.lives - 1 ≤ 0
      omega

/-- C9: with at least two lives, `playerEnemyCollision` changes no enemy and
no laser at all (so no active or visible flag of any of them), and not the
score; the enemy passed is as active afterwards as before, and passing it a
second time takes a second life. -/
theorem playerEnemyCollision_spares_enemy (s : GameState) (e : Nat) (hl : 2 ≤ s.lives) :
    (playerEnemyCollision s e).enemyGroup = s.enemyGroup ∧
    (playerEnemyCollision s e).laserGroup = s.laserGroup ∧
    (playerEnemyCollision s e).score = s.score ∧
    isActiveAt (playerEnemyCollision s e).enemyGroup e = isActiveAt s.enemyGroup e ∧
    (playerEnemyCollision s e).lives = s.lives - 1 ∧
    (playerEnemyCollision (playerEnemyCollision s e) e).lives = s.lives - 2 := by
  have h2 : (playerEnemyCollision (playerEnemyCollision s e) e).lives
      = (playerEnemyCollision s e).lives - 1 := by
    generalize playerEnemyCollision s e = t
    unfold playerEnemyCollision
    dsimp only
    split <;> rfl
  rw [h2, playerEnemyCollision_alive s e hl]
  refine ⟨rfl, rfl, rfl, rfl, rfl, ?_⟩
  show s.lives - 1 - 1 = s.lives - 2
  omega

/-! ## Laser against enemy: field by field -/

theorem laserCollision_laserGroup (s : GameState) (l e : Nat) :
    (laserCollision s l e).laserGroup = s.laserGroup.modify Entity.retire l := by
  unfold laserCollision
  dsimp only
  split <;> rfl

theorem laserCollision_enemyGroup (s : GameState) (l e : Nat) :
    (laserCollision s l e).enemyGroup = s.enemyGroup.modify Entity.retire e := by
  unfold laserCollision
  dsimp only
  split <;> rfl

theorem laserCollision_lives (s : GameState) (l e : Nat) :
    (laserCollision s l e).lives = s.lives := by
  unfold laserCollision
  dsimp only
  split <;> rfl

theorem laserCollision_player (s : GameState) (l e : Nat) :
    (laserCollision s l e).player = s.player := by
  unfold laserCollision
  dsimp only
  split <;> rfl

theorem laserCollision_gameOverText (s : GameState) (l e : Nat) :
    (laserCollision s l e).gameOverText = s.gameOverText := by
  unfold laserCollision
  dsimp only
  split <;> rfl

theorem laserCollision_scoreMessageText (s : GameState) (l e : Nat) :
    (laserCollision s l e).scoreMessageText = s.scoreMessageText := by
  unfold laserCollision
  dsimp only
  split <;> rfl

theorem laserCollision_cleared (s : GameState) (l e : Nat)
    (h0 : countActive (s.enemyGroup.modify Entity.retire e) = 0) :
    (laserCollision s l e).youWonText.visible = true ∧
    (laserCollision s l e).playAgainButton.visible = true ∧
    (laserCollision s l e).scoreText.visible = false ∧
    (laserCollision s l e).livesText.visible = false := by
  unfold laserCollision
  dsimp only
  rw [if_pos h0]
  exact ⟨rfl, rfl, rfl, rfl⟩

theorem laserCollision_not_cleared (s : GameState) (l e : Nat)
    (h0 : countActive (s.enemyGroup.modify Entity.retire e) ≠ 0) :
    (laserCollision s l e).youWonText = s.youWonText ∧
    (laserCollision s l e).playAgainButton = s.playAgainButton ∧
    (laserCollision s l e).scoreText.visible = s.scoreText.visible ∧
    (laserCollision s l e).livesText = s.livesText := by
  unfold laserCollision
  dsimp only
  rw [if_neg h0]
  exact ⟨rfl, rfl, rfl, rfl⟩

theorem countActive_modify_retire (g : List Entity) (i : Nat) :
    countActive (g.modify Entity.retire i) + (if isActiveAt g i = true then 1 else 0)
      = countActive g := by
  induction g generalizing i with
  | nil => simp [countActive, isActiveAt]
  | cons a g ih =>
    cases i with
    | zero =>
      simp only [List.modify_zero_cons, countActive, List.countP_cons, isActiveAt,
        List.getElem?_cons_zero, (retire_flags a).1]
      cases a.active <;> simp
    | succ i =>
      have := ih i
      simp only [List.modify_succ_cons, countActive, List.countP_cons, isActiveAt,
        List.getElem?_cons_succ] at this ⊢
      omega

theorem countActive_modify_le (g : List Entity) (i : Nat) :
    countActive (g.modify Entity.retire i) ≤ countActive g := by
  have := countActive_modify_retire g i
  omega

theorem countActive_pos_of_isActiveAt (g : List Entity) (i : Nat)
    (hi : isActiveAt g i = true) : 1 ≤ countActive g := by
  have := countActive_modify_retire g i
  rw [if_pos hi] at this
  omega

theorem countActive_map_retire (g : List Entity) : countActive (g.map Entity.retire) = 0 := by
  unfold countActive
  rw [List.countP_eq_zero]
  intro a ha
  simp only [List.mem_map] at ha
  obtain ⟨b, _, rfl⟩ := ha
  simp [(retire_flags b).1]

theorem isActiveAt_modify_ne (g : List Entity) (i j : Nat) (hij : i ≠ j) :
    isActiveAt (g.modify Entity.retire i) j = isActiveAt g j := by
  unfold isActiveAt
  rw [List.getElem?_modify_ne _ _ hij]

theorem isActiveAt_of_all (g : List Entity) (i : Nat) (hi : i < g.length)
    (hall : ∀ e ∈ g, e.active = true) : isActiveAt g i = true := by
  unfold isActiveAt
  rw [List.getElem?_eq_getElem hi]
  exact hall _ (List.getElem_mem hi)

/-! ## The invariants hold along every run -/

theorem playerEnemyCollision_lives (s : GameState) (e : Nat) :
    (playerEnemyCollision s e).lives = s.lives - 1 := by
  unfold playerEnemyCollision
  dsimp only
  split <;> rfl

theorem playerEnemyCollision_laserGroup (s : GameState) (e : Nat) :
    (playerEnemyCollision s e).laserGroup = s.laserGroup := by
  unfold playerEnemyCollision
  dsimp only
  split <;> rfl

theorem playerEnemyCollision_youWonText (s : GameState) (e : Nat) :
    (playerEnemyCollision s e).youWonText = s.youWonText := by
  unfold playerEnemyCollision
  dsimp only
  split <;> rfl

theorem start_fields (h : Host) (s0 : GameState) (hs0 : Start h s0) :
    s0.lives = 3 ∧ s0.youWonText.visible = false ∧ s0.gameOverText.visible = false := by
  rcases hs0 with ⟨ls, es, rfl⟩ | ⟨s, rx, ry, rfl⟩
  · exact ⟨rfl, rfl, rfl⟩
  · exact ⟨rfl, rfl, rfl⟩

theorem start_roundInv (h : Host) (s0 : GameState) (hs0 : Start h s0) : RoundInv s0 := by
  obtain ⟨h3, hw, hg⟩ := start_fields h s0 hs0
  refine ⟨by omega, fun _ => by omega, ?_⟩
  rintro (hw' | hg')
  · rw [hw] at hw'
    exact absurd hw' (by decide)
  · rw [hg] at hg'
    exact absurd hg' (by decide)

theorem start_hostInv (h : Host) (s0 : GameState) (hs0 : Start h s0) : HostInv s0 := by
  obtain ⟨h3, hw, _⟩ := start_fields h s0 hs0
  refine ⟨start_roundInv h s0 hs0, by omega, ?_⟩
  rintro ⟨hw', _⟩
  have hwv : s0.youWonText.visible = true := hw'
  rw [hw] at hwv
  exact absurd hwv (by decide)

theorem laserCollision_roundInv (s : GameState) (l e : Nat) (hi : RoundInv s) :
    RoundInv (laserCollision s l e) := by
  obtain ⟨h3, hg, hend⟩ := hi
  refine ⟨by rw [laserCollision_lives]; exact h3, ?_, ?_⟩
  · rw [laserCollision_lives, laserCollision_gameOverText]
    exact hg
  · rw [laserCollision_gameOverText, laserCollision_enemyGroup]
    intro hor
    by_cases h0 : countActive (s.enemyGroup.modify Entity.retire e) = 0
    · exact h0
    · rw [(laserCollision_not_cleared s l e h0).1] at hor
      have := hend hor
      have := countActive_modify_le s.enemyGroup e
      omega

theorem playerEnemyCollision_roundInv (s : GameState) (e : Nat) (hi : RoundInv s) :
    RoundInv (playerEnemyCollision s e) := by
  obtain ⟨h3, hg, hend⟩ := hi
  by_cases hl : 2 ≤ s.lives
  · rw [playerEnemyCollision_alive s e hl]
    refine ⟨?_, fun _ => ?_, hend⟩
    · show s.lives - 1 ≤ 3
      omega
    · show 1 ≤ s.lives - 1
      omega
  · rw [playerEnemyCollision_dead s e (by omega)]
    refine ⟨?_, fun hh => ?_, fun _ => countActive_map_retire _⟩
    · show s.lives - 1 ≤ 3
      omega
    · exact absurd hh (by simp [Text.setVisible])

theorem step_roundInv (h : Host) (s : GameState) (ev : Event) (hi : RoundInv s) :
    RoundInv (step h s ev) := by
  cases ev with
  | collision c =>
    cases c with
    | laser l e => exact laserCollision_roundInv s l e hi
    | player e => exact playerEnemyCollision_roundInv s e hi
  | restart rx ry => exact start_roundInv h _ (Or.inr ⟨s, rx, ry, rfl⟩)

theorem run_roundInv (h : Host) (evs : List Event) (s : GameState) (hi : RoundInv s) :
    RoundInv (run h s evs) := by
  induction evs generalizing s with
  | nil => exact hi
  | cons ev evs ih => exact ih (step h s ev) (step_roundInv h s ev hi)

theorem step_hostInv (h : Host) (s : GameState) (ev : Event) (hi : HostInv s)
    (hrep : reported s ev = true) : HostInv (step h s ev) := by
  cases ev with
  | restart rx ry => exact start_hostInv h _ (Or.inr ⟨s, rx, ry, rfl⟩)
  | collision c =>
    obtain ⟨hr, h0, _⟩ := hi
    have hr' := step_roundInv h s (.collision c) hr
    have hpos : 1 ≤ countActive s.enemyGroup := countActive_pos_of_isActiveAt _ _ hrep
    have hw : s.youWonText.visible = false := by
      cases hv : s.youWonText.visible
      · rfl
      · have := hr.2.2 (Or.inl hv)
        omega
    have hg : s.gameOverText.visible = false := by
      cases hv : s.gameOverText.visible
      · rfl
      · have := hr.2.2 (Or.inr hv)
        omega
    have h1 : 1 ≤ s.lives := hr.2.1 hg
    refine ⟨hr', ?_, ?_⟩
    · cases c with
      | laser l e =>
        show 0 ≤ (laserCollision s l e).lives
        rw [laserCollision_lives]
        exact h0
      | player e =>
        show 0 ≤ (playerEnemyCollision s e).lives
        rw [playerEnemyCollision_lives]
        omega
    · rintro ⟨hW, hL⟩
      cases c with
      | laser l e =>
        have hL' : (laserCollision s l e).gameOverText.visible = true := hL
        rw [laserCollision_gameOverText, hg] at hL'
        exact absurd hL' (by decide)
      | player e =>
        have hW' : (playerEnemyCollision s e).youWonText.visible = true := hW
        rw [playerEnemyCollision_youWonText, hw] at hW'
        exact absurd hW' (by decide)

theorem run_hostInv (h : Host) (evs : List Event) (s : GameState) (hi : HostInv s)
    (hrep : reportedRun h s evs = true) : HostInv (run h s evs) := by
  induction evs generalizing s with
  | nil => exact hi
  | cons ev evs ih =>
    simp only [reportedRun, Bool.and_eq_true] at hrep
    exact ih (step h s ev) (step_hostInv h s ev hi hrep.1) hrep.2

/-! ## Winning (C7) -/

theorem laserCollision_won_iff (s : GameState) (l e : Nat) :
    (laserCollision s l e).youWonText.visible = true ↔
      s.youWonText.visible = true ∨ countActive (laserCollision s l e).enemyGroup = 0 := by
  rw [laserCollision_enemyGroup]
  by_cases h0 : countActive (s.enemyGroup.modify Entity.retire e) = 0
  · simp [(laserCollision_cleared s l e h0).1, h0]
  · rw [(laserCollision_not_cleared s l e h0).1]
    simp [h0]

theorem hits_count (hits : List (Nat × Nat)) (t : GameState)
    (hnd : (hits.map Prod.snd).Nodup)
    (hact : ∀ p ∈ hits, isActiveAt t.enemyGroup p.2 = true) :
    countActive (collideAll t (hitsOf hits)).enemyGroup + hits.length
      = countActive t.enemyGroup ∧
    ((collideAll t (hitsOf hits)).youWonText.visible = true ↔
      t.youWonText.visible = true ∨
        (hits ≠ [] ∧ countActive t.enemyGroup = hits.length)) := by
  induction hits generalizing t with
  | nil => simp [hitsOf, collideAll]
  | cons p hits ih =>
    have hrun : collideAll t (hitsOf (p :: hits))
        = collideAll (laserCollision t p.1 p.2) (hitsOf hits) := rfl
    rw [List.map_cons, List.nodup_cons] at hnd
    have hp : isActiveAt t.enemyGroup p.2 = true := hact p (List.mem_cons_self _ _)
    have hc := countActive_modify_retire t.enemyGroup p.2
    rw [if_pos hp, ← laserCollision_enemyGroup t p.1 p.2] at hc
    have hact' : ∀ q ∈ hits, isActiveAt (laserCollision t p.1 p.2).enemyGroup q.2 = true := by
      intro q hq
      have hne : p.2 ≠ q.2 := by
        intro heq
        exact hnd.1 (heq ▸ List.mem_map_of_mem Prod.snd hq)
      rw [laserCollision_enemyGroup, isActiveAt_modify_ne _ _ _ hne]
      exact hact q (List.mem_cons_of_mem _ hq)
    obtain ⟨ih1, ih2⟩ := ih (laserCollision t p.1 p.2) hnd.2 hact'
    rw [hrun]
    refine ⟨by rw [List.length_cons]; omega, ?_⟩
    rw [ih2, laserCollision_won_iff, List.length_cons]
    constructor
    · rintro ((hw | h0) | ⟨_, hk⟩)
      · exact Or.inl hw
      · exact Or.inr ⟨List.cons_ne_nil _ _, by omega⟩
      · exact Or.inr ⟨List.cons_ne_nil _ _, by omega⟩
    · rintro (hw | ⟨_, hk⟩)
      · exact Or.inl (Or.inl hw)
      · cases hits with
        | nil =>
          refine Or.inl (Or.inr ?_)
          simp only [List.length_nil] at hk
          omega
        | cons q qs => exact Or.inr ⟨List.cons_ne_nil _ _, by omega⟩

/-- C7: in every Playing state, `laserCollision` on a laser and an enemy of
the groups leaves both inactive and invisible, and the round is Won
afterwards (the you-won text and the play-again button shown, the score and
lives texts hidden) exactly when no enemy of the group is active after the
call; in a Playing state that a sequence of handler calls reaches from
`create` or `restartGame` lives is positive, so there Won is reached exactly
when no enemy is active after the call and lives is positive.  When an enemy
is still active the round is still Playing and every text has the visibility
it had.  In a fresh round, one hundred enemies all active and the you-won
text hidden, `k` laser hits on pairwise distinct enemies leave `100 - k`
active and the round is Won exactly when `k = 100`. -/
theorem laserCollision_win_condition (s : GameState) (l e : Nat) (hP : Playing s)
    (hl : l < s.laserGroup.length) (he : e < s.enemyGroup.length) :
    (∃ las, (laserCollision s l e).laserGroup[l]? = some las ∧
      las.active = false ∧ las.visible = false) ∧
    (∃ en, (laserCollision s l e).enemyGroup[e]? = some en ∧
      en.active = false ∧ en.visible = false) ∧
    isActiveAt (laserCollision s l e).enemyGroup e = false ∧
    ((Won (laserCollision s l e) ∧
        (laserCollision s l e).playAgainButton.visible = true ∧
        (laserCollision s l e).scoreText.visible = false ∧
        (laserCollision s l e).livesText.visible = false) ↔
      countActive (laserCollision s l e).enemyGroup = 0) ∧
    (∀ (h : Host) (s0 : GameState) (evs : List Event), Start h s0 → s = run h s0 evs →
      0 < s.lives ∧
      ((Won (laserCollision s l e) ∧
          (laserCollision s l e).playAgainButton.visible = true ∧
          (laserCollision s l e).scoreText.visible = false ∧
          (laserCollision s l e).livesText.visible = false) ↔
        (countActive (laserCollision s l e).enemyGroup = 0 ∧ 0 < s.lives))) ∧
    (0 < countActive (laserCollision s l e).enemyGroup →
      Playing (laserCollision s l e) ∧
      (laserCollision s l e).youWonText.visible = s.youWonText.visible ∧
      (laserCollision s l e).playAgainButton.visible = s.playAgainButton.visible ∧
      (laserCollision s l e).gameOverText.visible = s.gameOverText.visible ∧
      (laserCollision s l e).scoreMessageText.visible = s.scoreMessageText.visible ∧
      (laserCollision s l e).scoreText.visible = s.scoreText.visible ∧
      (laserCollision s l e).livesText.visible = s.livesText.visible) ∧
    (∀ (t : GameState) (hits : List (Nat × Nat)),
      t.enemyGroup.length = 100 → (∀ en ∈ t.enemyGroup, en.active = true) →
      t.youWonText.visible = false →
      (hits.map Prod.snd).Nodup → (∀ p ∈ hits, p.2 < 100) →
      countActive (collideAll t (hitsOf hits)).enemyGroup = 100 - hits.length ∧
      (Won (collideAll t (hitsOf hits)) ↔ hits.length = 100)) := by
  obtain ⟨hg, hw, hm, hb, hsc, hli⟩ := hP
  have hiff : (Won (laserCollision s l e) ∧
        (laserCollision s l e).playAgainButton.visible = true ∧
        (laserCollision s l e).scoreText.visible = false ∧
        (laserCollision s l e).livesText.visible = false) ↔
      countActive (laserCollision s l e).enemyGroup = 0 := by
    rw [laserCollision_enemyGroup]
    constructor
    · rintro ⟨hW, _⟩
      have hW2 := (laserCollision_won_iff s l e).1 hW
      rw [laserCollision_enemyGroup, hw] at hW2
      rcases hW2 with hf | h0
      · exact absurd hf (by decide)
      · exact h0
    · intro h0
      exact laserCollision_cleared s l e h0
  refine ⟨?_, ?_, ?_, hiff, ?_, ?_, ?_⟩
  · refine ⟨(s.laserGroup[l]).retire, ?_, (retire_flags _).1, (retire_flags _).2.1⟩
    rw [laserCollision_laserGroup, List.getElem?_modify_eq, List.getElem?_eq_getElem hl]
    rfl
  · refine ⟨(s.enemyGroup[e]).retire, ?_, (retire_flags _).1, (retire_flags _).2.1⟩
    rw [laserCollision_enemyGroup, List.getElem?_modify_eq, List.getElem?_eq_getElem he]
    rfl
  · rw [laserCollision_enemyGroup]
    unfold isActiveAt
    rw [List.getElem?_modify_eq, List.getElem?_eq_getElem he]
    exact (retire_flags _).1
  · intro h s0 evs hs0 hrun
    have hinv := run_roundInv h evs s0 (start_roundInv h s0 hs0)
    rw [← hrun] at hinv
    have hlives : 1 ≤ s.lives := hinv.2.1 hg
    refine ⟨by omega, ?_⟩
    rw [hiff]
    exact ⟨fun h0 => ⟨h0, by omega⟩, fun h0 => h0.1⟩
  · rw [laserCollision_enemyGroup]
    intro hpos
    have h0 : countActive (s.enemyGroup.modify Entity.retire e) ≠ 0 := by omega
    obtain ⟨a, b, c, d⟩ := laserCollision_not_cleared s l e h0
    refine ⟨⟨?_, ?_, ?_, ?_, ?_, ?_⟩, ?_, ?_, ?_, ?_, c, ?_⟩
    · rw [laserCollision_gameOverText]; exact hg
    · rw [a]; exact hw
    · rw [laserCollision_scoreMessageText]; exact hm
    · rw [b]; exact hb
    · rw [c]; exact hsc
    · rw [d]; exact hli
    · rw [a]
    · rw [b]
    · rw [laserCollision_gameOverText]
    · rw [laserCollision_scoreMessageText]
    · rw [d]
  · intro t hits hlen hall hwt hnd hlt
    have hact : ∀ p ∈ hits, isActiveAt t.enemyGroup p.2 = true := fun p hp =>
      isActiveAt_of_all _ _ (by rw [hlen]; exact hlt p hp) hall
    obtain ⟨h1, h2⟩ := hits_count hits t hnd hact
    have hc : countActive t.enemyGroup = 100 := by
      rw [countActive_eq_length _ hall, hlen]
    refine ⟨by omega, ?_⟩
    show (collideAll t (hitsOf hits)).youWonText.visible = true ↔ _
    rw [h2, hwt, hc]
    constructor
    · rintro (hf | ⟨_, hk⟩)
      · exact absurd hf (by decide)
      · exact hk.symm
    · intro hk
      refine Or.inr ⟨?_, hk.symm⟩
      intro hnil
      rw [hnil] at hk
      simp at hk

/-! ## Ended rounds, lives and exclusion of the two endings (C2, C3, C8) -/

/-- C8: from `create`, or from the result of `restartGame` on any state,
every sequence of `laserCollision`, `playerEnemyCollision` and `restartGame`
calls in which each collision is reported for an enemy active at that moment
ends in a state where the you-won text and the game-over text are not both
visible. -/
theorem won_lost_exclusive (h : Host) (s0 : GameState) (evs : List Event)
    (hs0 : Start h s0) (hrep : reportedRun h s0 evs = true) :
    ¬ ((run h s0 evs).youWonText.visible = true ∧
       (run h s0 evs).gameOverText.visible = true) :=
  (run_hostInv h evs s0 (start_hostInv h s0 hs0) hrep).2.2

/-- C3, the claim as written fails: from the state after `create` (lives 3),
three `playerEnemyCollision` calls bring lives to 0 and a fourth brings it
to -1. -/
theorem lives_floor_counterexample :
    Start idleHost smallScene ∧
    (run idleHost smallScene (List.replicate 3 (Event.collision (.player 0)))).lives = 0 ∧
    (run idleHost smallScene (List.replicate 4 (Event.collision (.player 0)))).lives = -1 ∧
    ¬ (0 ≤ (run idleHost smallScene
        (List.replicate 4 (Event.collision (.player 0)))).lives) :=
  ⟨Or.inl ⟨_, _, rfl⟩, by decide, by decide, by decide⟩

/-- C3, amended: from `create` or a `restartGame` result, after every
sequence of `laserCollision`, `playerEnemyCollision` and `restartGame` calls
lives is at most 3; when each collision of the sequence is reported for an
enemy active at that moment, lives is also at least 0.  The handler itself
has no floor: every `playerEnemyCollision` call lowers lives by exactly 1. -/
theorem lives_bounds (h : Host) (s0 : GameState) (evs : List Event) (hs0 : Start h s0) :
    (run h s0 evs).lives ≤ 3 ∧
    (reportedRun h s0 evs = true →
      0 ≤ (run h s0 evs).lives ∧ (run h s0 evs).lives ≤ 3) ∧
    (∀ s e, (playerEnemyCollision s e).lives = s.lives - 1) := by
  have hr := run_roundInv h evs s0 (start_roundInv h s0 hs0)
  exact ⟨hr.1, fun hrep => ⟨(run_hostInv h evs s0 (start_hostInv h s0 hs0) hrep).2.1, hr.1⟩,
    playerEnemyCollision_lives⟩

/-- C2, the claim as written fails: after the two enemies of the small scene
are shot the round is Won, and a further `laserCollision` still raises the
score and a further `playerEnemyCollision` still takes a life; after three
player hits the round is Lost, and a further `playerEnemyCollision` still
lowers lives and a further `laserCollision` still raises the score. -/
theorem ended_round_counterexample :
    Won (collideAll smallScene [.laser 0 0, .laser 0 1]) ∧
    (collideAll smallScene [.laser 0 0, .laser 0 1]).score = 20 ∧
    (laserCollision (collideAll smallScene [.laser 0 0, .laser 0 1]) 0 0).score = 30 ∧
    (collideAll smallScene [.laser 0 0, .laser 0 1]).lives = 3 ∧
    (playerEnemyCollision (collideAll smallScene [.laser 0 0, .laser 0 1]) 0).lives = 2 ∧
    Lost (collideAll smallScene [.player 0, .player 0, .player 0]) ∧
    (collideAll smallScene [.player 0, .player 0, .player 0]).lives = 0 ∧
    (playerEnemyCollision
      (collideAll smallScene [.player 0, .player 0, .player 0]) 0).lives = -1 ∧
    (collideAll smallScene [.player 0, .player 0, .player 0]).score = 0 ∧
    (laserCollision
      (collideAll smallScene [.player 0, .player 0, .player 0]) 0 0).score = 10 := by
  decide

/-- C2, amended: in every state that a sequence of handler calls reaches from
`create` or `restartGame` and in which the round has ended (Won or Lost), no
enemy of the group is active, so no overlap with an enemy can be reported and
the physics world calls neither handler.  The handlers have no check of
their own: called all the same, `laserCollision` adds 10 to the score and
leaves lives and the player alone, and `playerEnemyCollision` takes 1 from
lives and leaves the score and the lasers alone. -/
theorem ended_round_reports_nothing (h : Host) (s0 : GameState) (evs : List Event)
    (hs0 : Start h s0) (hend : Won (run h s0 evs) ∨ Lost (run h s0 evs)) :
    countActive (run h s0 evs).enemyGroup = 0 ∧
    (∀ c : Collision, reported (run h s0 evs) (Event.collision c) = false) ∧
    (∀ l e, (laserCollision (run h s0 evs) l e).score = (run h s0 evs).score + 10 ∧
      (laserCollision (run h s0 evs) l e).lives = (run h s0 evs).lives ∧
      (laserCollision (run h s0 evs) l e).player = (run h s0 evs).player) ∧
    (∀ e, (playerEnemyCollision (run h s0 evs) e).lives = (run h s0 evs).lives - 1 ∧
      (playerEnemyCollision (run h s0 evs) e).score = (run h s0 evs).score ∧
      (playerEnemyCollision (run h s0 evs) e).laserGroup = (run h s0 evs).laserGroup) := by
  have hr := run_roundInv h evs s0 (start_roundInv h s0 hs0)
  have h0 : countActive (run h s0 evs).enemyGroup = 0 := hr.2.2 hend
  refine ⟨h0, fun c => ?_, fun l e => ⟨laserCollision_score _ l e, laserCollision_lives _ l e,
    laserCollision_player _ l e⟩, fun e => ⟨playerEnemyCollision_lives _ e,
    playerEnemyCollision_score _ e, playerEnemyCollision_laserGroup _ e⟩⟩
  cases hrep : reported (run h s0 evs) (Event.collision c)
  · rfl
  · have := countActive_pos_of_isActiveAt _ _ hrep
    omega

/-! ## Firing (C10) -/

theorem laserCollision_cursor_calls (s : GameState) (l e : Nat) :
    (laserCollision s l e).cursor = s.cursor ∧
    fireCount (laserCollision s l e).calls = fireCount s.calls := by
  unfold laserCollision
  dsimp only
  split <;> exact ⟨rfl, by simp [fireCount]⟩

theorem playerEnemyCollision_cursor_calls (s : GameState) (e : Nat) :
    (playerEnemyCollision s e).cursor = s.cursor ∧
    fireCount (playerEnemyCollision s e).calls = fireCount s.calls := by
  unfold playerEnemyCollision
  dsimp only
  split <;> exact ⟨rfl, by simp [fireCount]⟩

theorem step_cursor_calls (h : Host) (s : GameState) (ev : Event) :
    (step h s ev).cursor = s.cursor ∧ fireCount (step h s ev).calls = fireCount s.calls := by
  cases ev with
  | collision c =>
    cases c with
    | laser l e => exact laserCollision_cursor_calls s l e
    | player e => exact playerEnemyCollision_cursor_calls s e
  | restart rx ry => exact ⟨rfl, rfl⟩

theorem run_cursor_calls (h : Host) (evs : List Event) (s : GameState) :
    (run h s evs).cursor = s.cursor ∧ fireCount (run h s evs).calls = fireCount s.calls := by
  induction evs generalizing s with
  | nil => exact ⟨rfl, rfl⟩
  | cons ev evs ih =>
    obtain ⟨h1, h2⟩ := ih (step h s ev)
    obtain ⟨h3, h4⟩ := step_cursor_calls h s ev
    exact ⟨h1.trans h3, h2.trans h4⟩

theorem beforeUpdate_cursor (h : Host) (s : GameState) (f : Frame) :
    (beforeUpdate h s f).cursor = replayKeys s.cursor f.keys := by
  unfold beforeUpdate
  rw [(run_cursor_calls h f.events _).1]

theorem beforeUpdate_fireCount (h : Host) (s : GameState) (f : Frame) :
    fireCount (beforeUpdate h s f).calls = fireCount s.calls := by
  unfold beforeUpdate
  rw [(run_cursor_calls h f.events _).2]

theorem handle_space_ok (c : CursorKeys) (ev : KeyEvent)
    (hok : c.space.justDown = true → c.space.isDown = true) :
    (c.handle ev).space.justDown = true → (c.handle ev).space.isDown = true := by
  obtain ⟨code, down⟩ := ev
  cases code <;> cases down <;> cases hd : c.space.isDown <;>
    simp_all [CursorKeys.handle, Key.handle, Key.onDown, Key.onUp]

theorem handle_space_was_up (c : CursorKeys) (ev : KeyEvent) (evs : List KeyEvent) :
    ((c.handle ev).space.justDown = true ∨ (c.handle ev).space.isDown = false ∨
        spaceRelease ∈ evs) ↔
      (c.space.justDown = true ∨ c.space.isDown = false ∨ spaceRelease ∈ ev :: evs) := by
  obtain ⟨code, down⟩ := ev
  cases code <;> cases down <;> cases hd : c.space.isDown <;>
    cases hj : c.space.justDown <;>
    simp [CursorKeys.handle, Key.handle, Key.onDown, Key.onUp, spaceRelease, hd, hj]

theorem replay_space (evs : List KeyEvent) (c : CursorKeys)
    (hok : c.space.justDown = true → c.space.isDown = true) :
    (evs.foldl CursorKeys.handle c).space.justDown = true ↔
      ((evs.foldl CursorKeys.handle c).space.isDown = true ∧
        (c.space.justDown = true ∨ c.space.isDown = false ∨ spaceRelease ∈ evs)) := by
  induction evs generalizing c with
  | nil =>
    cases hd : c.space.isDown <;> cases hj : c.space.justDown <;> simp_all
  | cons ev evs ih =>
    rw [List.foldl_cons, ih (c.handle ev) (handle_space_ok c ev hok),
      handle_space_was_up c ev evs]

theorem replay_space_held (evs : List KeyEvent) (c : CursorKeys)
    (hd : c.space.isDown = true) (hno : spaceRelease ∉ evs) :
    (evs.foldl CursorKeys.handle c).space = c.space := by
  induction evs generalizing c with
  | nil => rfl
  | cons ev evs ih =>
    have hne : ev ≠ spaceRelease := fun heq => hno (heq ▸ List.mem_cons_self _ _)
    have hstep : (c.handle ev).space = c.space := by
      obtain ⟨code, down⟩ := ev
      cases code <;> cases down <;>
        simp_all [CursorKeys.handle, Key.handle, Key.onDown, Key.onUp, spaceRelease]
    rw [List.foldl_cons, ih (c.handle ev) (by rw [hstep]; exact hd)
      (fun hmem => hno (List.mem_cons_of_mem _ hmem)), hstep]

theorem update_calls (h : Host) (s : GameState) :
    (update h s).calls =
      if spaceDown s = true ∧ (JustDown (createCursorKeys s.cursor).space).1 = true ∧
          0 < s.lives
      then s.calls ++ [Call.fireLaser, Call.play "playerLaser"]
      else s.calls := by
  unfold update JustDown spaceDown
  generalize createCursorKeys s.cursor = c
  cases hd : c.space.isDown <;> cases hj : c.space.justDown <;>
    by_cases hl : 0 < s.lives <;> simp [hl, hd, hj]

theorem update_player (h : Host) (s : GameState) :
    (update h s).player =
      if (createCursorKeys s.cursor).right.isDown = true
      then s.player.setVelocityX playerSpeed
      else if (createCursorKeys s.cursor).left.isDown = true
      then s.player.setVelocityX (-playerSpeed)
      else s.player.setVelocityX 0 := by
  unfold update JustDown
  generalize createCursorKeys s.cursor = c
  cases hd : c.space.isDown <;> cases hj : c.space.justDown <;>
    by_cases hl : 0 < s.lives <;> simp [hl, hd, hj]

theorem update_laserGroup (h : Host) (s : GameState) :
    (update h s).laserGroup =
      h.checkOutOfBounds
        (if spaceDown s = true ∧ (JustDown (createCursorKeys s.cursor).space).1 = true ∧
            0 < s.lives
         then h.fireLaser s.laserGroup (update h s).player
         else s.laserGroup) := by
  rw [update_player]
  unfold update JustDown spaceDown
  generalize createCursorKeys s.cursor = c
  cases hd : c.space.isDown <;> cases hj : c.space.justDown <;>
    by_cases hl : 0 < s.lives <;> simp [hl, hd, hj]

theorem update_space (h : Host) (s : GameState) :
    spaceDown (update h s) = spaceDown s ∧
    spaceLatch (update h s) = (spaceLatch s && !spaceDown s) := by
  unfold update JustDown spaceDown spaceLatch
  generalize createCursorKeys s.cursor = c
  cases hd : c.space.isDown <;> cases hj : c.space.justDown <;>
    by_cases hl : 0 < s.lives <;> simp [hl, hd, hj, createCursorKeys]

theorem justDown_fst (k : Key) : (JustDown k).1 = k.justDown := by
  unfold JustDown
  split <;> simp_all

theorem beforeUpdate_latch (h : Host) (s : GameState) (f : Frame)
    (hq : spaceLatch s = false) :
    spaceLatch (beforeUpdate h s f) = true ↔
      (spaceDown (beforeUpdate h s f) = true ∧
        (spaceDown s = false ∨ spaceRelease ∈ f.keys)) := by
  unfold spaceLatch spaceDown at *
  rw [beforeUpdate_cursor]
  cases hc : s.cursor with
  | none => simp [replayKeys, createCursorKeys]
  | some c =>
    rw [hc] at hq
    have hq2 : c.space.justDown = false := hq
    have := replay_space f.keys c (fun hj => by rw [hq2] at hj; exact absurd hj (by decide))
    simp only [replayKeys, createCursorKeys, this, hq2]
    simp

theorem beforeUpdate_held (h : Host) (s : GameState) (f : Frame)
    (hd : spaceDown s = true) (hno : spaceRelease ∉ f.keys) :
    spaceDown (beforeUpdate h s f) = true ∧
    spaceLatch (beforeUpdate h s f) = spaceLatch s := by
  unfold spaceLatch spaceDown at *
  rw [beforeUpdate_cursor]
  cases hc : s.cursor with
  | none =>
    rw [hc] at hd
    exact absurd hd (by decide)
  | some c =>
    rw [hc] at hd
    have hd2 : c.space.isDown = true := hd
    simp only [replayKeys, createCursorKeys, replay_space_held f.keys c hd2 hno, hd2]
    exact ⟨trivial, trivial⟩

theorem tick_calls (h : Host) (s : GameState) (f : Frame) (hq : spaceLatch s = false) :
    (tick h s f).calls =
      if spaceDown (beforeUpdate h s f) = true ∧
          (spaceDown s = false ∨ spaceRelease ∈ f.keys) ∧
          0 < (beforeUpdate h s f).lives
      then (beforeUpdate h s f).calls ++ [Call.fireLaser, Call.play "playerLaser"]
      else (beforeUpdate h s f).calls := by
  unfold tick
  rw [update_calls, justDown_fst]
  have hl := beforeUpdate_latch h s f hq
  unfold spaceLatch at hl
  by_cases hc : spaceDown (beforeUpdate h s f) = true ∧
      (spaceDown s = false ∨ spaceRelease ∈ f.keys) ∧ 0 < (beforeUpdate h s f).lives
  · rw [if_pos hc, if_pos ⟨hc.1, hl.2 ⟨hc.1, hc.2.1⟩, hc.2.2⟩]
  · rw [if_neg hc, if_neg]
    rintro ⟨h1, h2, h3⟩
    exact hc ⟨h1, (hl.1 h2).2, h3⟩

theorem tick_laserGroup (h : Host) (s : GameState) (f : Frame) (hq : spaceLatch s = false) :
    (tick h s f).laserGroup =
      h.checkOutOfBounds
        (if spaceDown (beforeUpdate h s f) = true ∧
            (spaceDown s = false ∨ spaceRelease ∈ f.keys) ∧
            0 < (beforeUpdate h s f).lives
         then h.fireLaser (beforeUpdate h s f).laserGroup (tick h s f).player
         else (beforeUpdate h s f).laserGroup) := by
  unfold tick
  rw [update_laserGroup, justDown_fst]
  have hl := beforeUpdate_latch h s f hq
  unfold spaceLatch at hl
  by_cases hc : spaceDown (beforeUpdate h s f) = true ∧
      (spaceDown s = false ∨ spaceRelease ∈ f.keys) ∧ 0 < (beforeUpdate h s f).lives
  · rw [if_pos hc, if_pos ⟨hc.1, hl.2 ⟨hc.1, hc.2.1⟩, hc.2.2⟩]
  · rw [if_neg hc, if_neg]
    rintro ⟨h1, h2, h3⟩
    exact hc ⟨h1, (hl.1 h2).2, h3⟩

theorem tick_spaceDown (h : Host) (s : GameState) (f : Frame) :
    spaceDown (tick h s f) = spaceDown (beforeUpdate h s f) :=
  (update_space h (beforeUpdate h s f)).1

theorem tick_quiet (h : Host) (s : GameState) (f : Frame) (hq : spaceLatch s = false) :
    spaceLatch (tick h s f) = false := by
  unfold tick
  rw [(update_space h (beforeUpdate h s f)).2]
  have hl := beforeUpdate_latch h s f hq
  cases hj : spaceLatch (beforeUpdate h s f)
  · rfl
  · rw [(hl.1 hj).1]
    rfl

theorem ticks_quiet (h : Host) (fs : List Frame) (s : GameState)
    (hq : spaceLatch s = false) : spaceLatch (ticks h s fs) = false := by
  induction fs generalizing s with
  | nil => exact hq
  | cons f fs ih => exact ih (tick h s f) (tick_quiet h s f hq)

theorem tick_fireCount_le (h : Host) (s : GameState) (f : Frame) :
    fireCount (tick h s f).calls ≤ fireCount s.calls + 1 := by
  unfold tick
  rw [update_calls, ← beforeUpdate_fireCount h s f]
  split
  · simp [fireCount]
  · omega

theorem tick_silent_of_up (h : Host) (s : GameState) (f : Frame)
    (hup : spaceDown (beforeUpdate h s f) = false) :
    fireCount (tick h s f).calls = fireCount s.calls := by
  unfold tick
  rw [update_calls, ← beforeUpdate_fireCount h s f, if_neg]
  rintro ⟨h1, _⟩
  rw [hup] at h1
  exact absurd h1 (by decide)

theorem tick_after_down (h : Host) (s : GameState) (f : Frame)
    (hd : spaceDown (beforeUpdate h s f) = true) :
    spaceDown (tick h s f) = true ∧ spaceLatch (tick h s f) = false := by
  unfold tick
  obtain ⟨h1, h2⟩ := update_space h (beforeUpdate h s f)
  rw [h1, h2, hd]
  simp

theorem tick_held_silent (h : Host) (s : GameState) (f : Frame)
    (hd : spaceDown s = true) (hq : spaceLatch s = false) (hno : spaceRelease ∉ f.keys) :
    fireCount (tick h s f).calls = fireCount s.calls ∧
    spaceDown (tick h s f) = true ∧ spaceLatch (tick h s f) = false := by
  obtain ⟨hbd, _⟩ := beforeUpdate_held h s f hd hno
  refine ⟨?_, tick_after_down h s f hbd⟩
  rw [tick_calls h s f hq, ← beforeUpdate_fireCount h s f, if_neg]
  rintro ⟨_, hor, _⟩
  rcases hor with hup | hrel
  · rw [hd] at hup
    exact absurd hup (by decide)
  · exact hno hrel

theorem ticks_held_silent (h : Host) (fs : List Frame) (s : GameState)
    (hno : ∀ f ∈ fs, spaceRelease ∉ f.keys)
    (hd : spaceDown s = true) (hq : spaceLatch s = false) :
    fireCount (ticks h s fs).calls = fireCount s.calls := by
  induction fs generalizing s with
  | nil => rfl
  | cons f fs ih =>
    obtain ⟨h0, h1, h2⟩ := tick_held_silent h s f hd hq (hno f (List.mem_cons_self _ _))
    have := ih (tick h s f) (fun g hg => hno g (List.mem_cons_of_mem _ hg)) h1 h2
    rw [h0] at this
    exact this

theorem ticks_no_release_le (h : Host) (fs : List Frame) (s : GameState)
    (hno : ∀ f ∈ fs, spaceRelease ∉ f.keys) :
    fireCount (ticks h s fs).calls ≤ fireCount s.calls + 1 := by
  induction fs generalizing s with
  | nil => exact Nat.le_succ _
  | cons f fs ih =>
    have hrest : ∀ g ∈ fs, spaceRelease ∉ g.keys := fun g hg =>
      hno g (List.mem_cons_of_mem _ hg)
    show fireCount (ticks h (tick h s f) fs).calls ≤ _
    cases hd : spaceDown (beforeUpdate h s f)
    · have := ih (tick h s f) hrest
      rw [tick_silent_of_up h s f hd] at this
      exact this
    · obtain ⟨h1, h2⟩ := tick_after_down h s f hd
      rw [ticks_held_silent h fs (tick h s f) hrest h1 h2]
      exact tick_fireCount_le h s f

/-- C10, the claim as written fails: the first `update` creates the keys, space
is pressed before the second `update`, and released and pressed again before
the third.  Space is down at the second `update` and at the third, lives is
3, and the third `update` fires all the same: a fire action on a tick whose
previous tick also had space pressed, the second fire of the two ticks. -/
theorem fire_rising_edge_counterexample :
    spaceDown (beforeUpdate idleHost (ticks idleHost smallScene [quietFrame]) pressFrame)
      = true ∧
    (tick idleHost (ticks idleHost smallScene [quietFrame]) pressFrame).calls =
      (beforeUpdate idleHost (ticks idleHost smallScene [quietFrame]) pressFrame).calls ++
        [Call.fireLaser, Call.play "playerLaser"] ∧
    spaceDown
      (beforeUpdate idleHost (ticks idleHost smallScene [quietFrame, pressFrame])
        repressFrame) = true ∧
    (beforeUpdate idleHost (ticks idleHost smallScene [quietFrame, pressFrame])
      repressFrame).lives = 3 ∧
    (tick idleHost (ticks idleHost smallScene [quietFrame, pressFrame]) repressFrame).calls =
      (beforeUpdate idleHost (ticks idleHost smallScene [quietFrame, pressFrame])
        repressFrame).calls ++ [Call.fireLaser, Call.play "playerLaser"] ∧
    fireCount (ticks idleHost smallScene [quietFrame, pressFrame, repressFrame]).calls = 2 := by
  decide

/-- C10, amended: `update` applies `fireLaser` to the laser group and then
plays the laser sound exactly when the space key is down, its `JustDown`
latch is set, and lives is positive; otherwise it makes neither call.  Over
the frames of a game started by `create`, with every queued keyboard event
replayed before each `update`, the fire action of a frame happens exactly
when space is down as `update` runs, the key has been up since the previous
`update` read it (it was up at that `update`, or a `keyup` for it arrived in
between), and lives is positive; when no `keyup` arrived this is: down on
this frame and up on the frame before.  No frame with lives at or below 0
fires, the first `update` never fires because the keys are created in it, and
a run of frames during which no `keyup` for space arrives fires at most
once.  The sound is part of every fire action whatever `fireLaser` returns,
also when it hands the laser group back unchanged. -/
theorem fire_on_fresh_press (h : Host) (lasers enemies : List Entity)
    (fs : List Frame) (f : Frame) (s b : GameState)
    (hs : s = ticks h (create h lasers enemies) fs) (hb : b = beforeUpdate h s f) :
    (∀ t : GameState,
      (update h t).calls =
        (if spaceDown t = true ∧ (JustDown (createCursorKeys t.cursor).space).1 = true ∧
            0 < t.lives
         then t.calls ++ [Call.fireLaser, Call.play "playerLaser"]
         else t.calls) ∧
      (update h t).laserGroup =
        h.checkOutOfBounds
          (if spaceDown t = true ∧ (JustDown (createCursorKeys t.cursor).space).1 = true ∧
              0 < t.lives
           then h.fireLaser t.laserGroup (update h t).player
           else t.laserGroup)) ∧
    ((tick h s f).calls = b.calls ++ [Call.fireLaser, Call.play "playerLaser"] ↔
      (spaceDown b = true ∧ (spaceDown s = false ∨ spaceRelease ∈ f.keys) ∧ 0 < b.lives)) ∧
    (tick h s f).calls =
      (if spaceDown b = true ∧ (spaceDown s = false ∨ spaceRelease ∈ f.keys) ∧ 0 < b.lives
       then b.calls ++ [Call.fireLaser, Call.play "playerLaser"]
       else b.calls) ∧
    (tick h s f).laserGroup =
      h.checkOutOfBounds
        (if spaceDown b = true ∧ (spaceDown s = false ∨ spaceRelease ∈ f.keys) ∧ 0 < b.lives
         then h.fireLaser b.laserGroup (tick h s f).player
         else b.laserGroup) ∧
    spaceDown (tick h s f) = spaceDown b ∧
    (spaceRelease ∉ f.keys →
      ((tick h s f).calls = b.calls ++ [Call.fireLaser, Call.play "playerLaser"] ↔
        (spaceDown b = true ∧ spaceDown s = false ∧ 0 < b.lives))) ∧
    (b.lives ≤ 0 → (tick h s f).calls = b.calls) ∧
    (fs = [] → (tick h s f).calls = b.calls) ∧
    (∀ (t : GameState) (held : List Frame), (∀ g ∈ held, spaceRelease ∉ g.keys) →
      fireCount (ticks h t held).calls ≤ fireCount t.calls + 1) ∧
    (∀ t : GameState, h.fireLaser t.laserGroup (update h t).player = t.laserGroup →
      spaceDown t = true → spaceLatch t = true → 0 < t.lives →
      (update h t).laserGroup = h.checkOutOfBounds t.laserGroup ∧
      (update h t).calls = t.calls ++ [Call.fireLaser, Call.play "playerLaser"]) := by
  have hq : spaceLatch s = false := by
    rw [hs]
    exact ticks_quiet h fs _ rfl
  have hcalls := tick_calls h s f hq
  have hlas := tick_laserGroup h s f hq
  rw [← hb] at hcalls hlas
  have hiff : (tick h s f).calls = b.calls ++ [Call.fireLaser, Call.play "playerLaser"] ↔
      (spaceDown b = true ∧ (spaceDown s = false ∨ spaceRelease ∈ f.keys) ∧ 0 < b.lives) := by
    constructor
    · intro heq
      by_contra hc
      rw [hcalls, if_neg hc] at heq
      have := congrArg List.length heq
      simp at this
    · intro hc
      rw [hcalls, if_pos hc]
  refine ⟨fun t => ⟨update_calls h t, update_laserGroup h t⟩, hiff, hcalls, hlas, ?_, ?_, ?_,
    ?_, fun t held hheld => ticks_no_release_le h held t hheld, ?_⟩
  · rw [hb]
    exact tick_spaceDown h s f
  · intro hno
    rw [hiff]
    constructor
    · rintro ⟨h1, h2 | h2, h3⟩
      · exact ⟨h1, h2, h3⟩
      · exact absurd h2 hno
    · rintro ⟨h1, h2, h3⟩
      exact ⟨h1, Or.inl h2, h3⟩
  · intro hle
    rw [hcalls, if_neg (fun hc => by omega)]
  · intro hnil
    have hnone : b.cursor = none := by
      rw [hb, beforeUpdate_cursor, hs, hnil]
      rfl
    have hup : spaceDown b = false := by
      unfold spaceDown
      rw [hnone]
      rfl
    rw [hcalls, if_neg]
    rintro ⟨h1, _⟩
    rw [hup] at h1
    exact absurd h1 (by decide)
  · intro t hsame hd hj hl
    have hjd : (JustDown (createCursorKeys t.cursor).space).1 = true := by
      rw [justDown_fst]
      exact hj
    rw [update_laserGroup, update_calls, if_pos ⟨hd, hjd, hl⟩, if_pos ⟨hd, hjd, hl⟩, hsame]
    exact ⟨rfl, rfl⟩

/-! ## The theorems at concrete inputs -/

theorem start_smallScene : Start idleHost smallScene := Or.inl ⟨_, _, rfl⟩

theorem restartGame_resets_witness :
    sprite 60 70 ∈ (restartGame idleHost smallScene 60 70).enemyGroup ∧
    (sprite 60 70).active = true ∧ (sprite 60 70).visible = true ∧
    (restartGame idleHost smallScene 60 70).score = 0 ∧
    (restartGame idleHost smallScene 60 70).lives = 3 ∧
    countActive (restartGame idleHost smallScene 60 70).enemyGroup = 100 :=
  ⟨by decide,
   ((restartGame_resets idleHost smallScene 60 70).2.2.2.2.2.2.2.2.2.1 _ (by decide)).1,
   ((restartGame_resets idleHost smallScene 60 70).2.2.2.2.2.2.2.2.2.1 _ (by decide)).2,
   (restartGame_resets idleHost smallScene 60 70).1,
   (restartGame_resets idleHost smallScene 60 70).2.1,
   (restartGame_resets idleHost smallScene 60 70).2.2.2.2.2.2.2.2.2.2⟩

theorem playerEnemyCollision_keeps_playing_witness :
    Playing smallScene ∧ 2 ≤ smallScene.lives ∧
    (playerEnemyCollision smallScene 1).lives = 2 ∧
    (playerEnemyCollision smallScene 1).player.x = 300 ∧
    (playerEnemyCollision smallScene 1).player.y = 700 ∧
    Playing (playerEnemyCollision smallScene 1) :=
  ⟨by decide, by decide,
   (playerEnemyCollision_keeps_playing smallScene 1 (by decide) (by decide)).2.2.2.2.2.2.2.2.2.2.2.2.2
     (by decide),
   (playerEnemyCollision_keeps_playing smallScene 1 (by decide) (by decide)).2.2.1,
   (playerEnemyCollision_keeps_playing smallScene 1 (by decide) (by decide)).2.2.2.1,
   (playerEnemyCollision_keeps_playing smallScene 1 (by decide) (by decide)).2.2.2.2.1⟩

theorem playerEnemyCollision_last_life_witness :
    (collideAll smallScene [.laser 0 0, .player 1, .player 1]).lives = 1 ∧
    (collideAll smallScene [.laser 0 0, .player 1, .player 1, .player 1]).lives = 0 ∧
    Lost (collideAll smallScene [.laser 0 0, .player 1, .player 1, .player 1]) ∧
    (collideAll smallScene
      [.laser 0 0, .player 1, .player 1, .player 1]).scoreMessageText.text
        = "Your score was: 10" ∧
    (playerEnemyCollision smallScene 1).gameOverText = smallScene.gameOverText :=
  ⟨by decide,
   ((playerEnemyCollision_last_life
      (collideAll smallScene [.laser 0 0, .player 1, .player 1]) 1).1 (by decide)).1,
   ((playerEnemyCollision_last_life
      (collideAll smallScene [.laser 0 0, .player 1, .player 1]) 1).1 (by decide)).2.1,
   congrArg Text.text ((playerEnemyCollision_last_life
      (collideAll smallScene [.laser 0 0, .player 1, .player 1]) 1).1 (by decide)).2.2.2.1,
   (playerEnemyCollision_last_life smallScene 1).2.1 (by decide)⟩

theorem playerEnemyCollision_spares_enemy_witness :
    2 ≤ smallScene.lives ∧
    (playerEnemyCollision smallScene 1).enemyGroup = smallScene.enemyGroup ∧
    isActiveAt (playerEnemyCollision smallScene 1).enemyGroup 1 = true ∧
    (playerEnemyCollision (playerEnemyCollision smallScene 1) 1).lives = 1 :=
  ⟨by decide,
   (playerEnemyCollision_spares_enemy smallScene 1 (by decide)).1,
   (playerEnemyCollision_spares_enemy smallScene 1 (by decide)).2.2.2.1.trans (by decide),
   (playerEnemyCollision_spares_enemy smallScene 1 (by decide)).2.2.2.2.2⟩

theorem laserCollision_win_condition_witness :
    Playing (run idleHost smallScene [Event.collision (.laser 0 0)]) ∧
    0 < (run idleHost smallScene [Event.collision (.laser 0 0)]).laserGroup.length ∧
    1 < (run idleHost smallScene [Event.collision (.laser 0 0)]).enemyGroup.length ∧
    Start idleHost smallScene ∧
    countActive
      (laserCollision (run idleHost smallScene [Event.collision (.laser 0 0)]) 0 1).enemyGroup
        = 0 ∧
    Won (laserCollision (run idleHost smallScene [Event.collision (.laser 0 0)]) 0 1) ∧
    0 < countActive (laserCollision smallScene 0 0).enemyGroup ∧
    Playing (laserCollision smallScene 0 0) ∧
    (restartGame idleHost smallScene 60 70).enemyGroup.length = 100 ∧
    (∀ en ∈ (restartGame idleHost smallScene 60 70).enemyGroup, en.active = true) ∧
    (restartGame idleHost smallScene 60 70).youWonText.visible = false ∧
    ([(0, 4), (0, 7)].map Prod.snd).Nodup ∧ (∀ p ∈ [(0, 4), (0, 7)], p.2 < 100) ∧
    countActive (collideAll (restartGame idleHost smallScene 60 70)
      (hitsOf [(0, 4), (0, 7)])).enemyGroup = 100 - 2 :=
  ⟨by decide, by decide, by decide, start_smallScene, by decide,
   (((laserCollision_win_condition (run idleHost smallScene [Event.collision (.laser 0 0)])
      0 1 (by decide) (by decide) (by decide)).2.2.2.2.1
      idleHost smallScene [Event.collision (.laser 0 0)] start_smallScene rfl).2.2
      ⟨by decide, by decide⟩).1,
   by decide,
   ((laserCollision_win_condition smallScene 0 0 (by decide) (by decide)
      (by decide)).2.2.2.2.2.1 (by decide)).1,
   by decide, by decide, by decide, by decide, by decide,
   ((laserCollision_win_condition smallScene 0 0 (by decide) (by decide)
      (by decide)).2.2.2.2.2.2
      (restartGame idleHost smallScene 60 70) [(0, 4), (0, 7)]
      (by decide) (by decide) (by decide) (by decide) (by decide)).1⟩

theorem won_lost_exclusive_witness :
    Start idleHost smallScene ∧
    reportedRun idleHost smallScene
      [.collision (.laser 0 0), .collision (.player 1), .collision (.laser 0 1)] = true ∧
    ¬ ((run idleHost smallScene
          [.collision (.laser 0 0), .collision (.player 1),
           .collision (.laser 0 1)]).youWonText.visible = true ∧
       (run idleHost smallScene
          [.collision (.laser 0 0), .collision (.player 1),
           .collision (.laser 0 1)]).gameOverText.visible = true) :=
  ⟨start_smallScene, by decide,
   won_lost_exclusive idleHost smallScene
     [.collision (.laser 0 0), .collision (.player 1), .collision (.laser 0 1)]
     start_smallScene (by decide)⟩

theorem lives_bounds_witness :
    Start idleHost smallScene ∧
    reportedRun idleHost smallScene
      [.collision (.player 0), .collision (.player 0), .collision (.player 0)] = true ∧
    0 ≤ (run idleHost smallScene
      [.collision (.player 0), .collision (.player 0), .collision (.player 0)]).lives ∧
    (run idleHost smallScene
      [.collision (.player 0), .collision (.player 0), .collision (.player 0)]).lives ≤ 3 :=
  ⟨start_smallScene, by decide,
   ((lives_bounds idleHost smallScene
      [.collision (.player 0), .collision (.player 0), .collision (.player 0)]
      start_smallScene).2.1 (by decide)).1,
   (lives_bounds idleHost smallScene
      [.collision (.player 0), .collision (.player 0), .collision (.player 0)]
      start_smallScene).1⟩

theorem ended_round_reports_nothing_witness :
    Start idleHost smallScene ∧
    Won (run idleHost smallScene [.collision (.laser 0 0), .collision (.laser 0 1)]) ∧
    countActive
      (run idleHost smallScene
        [.collision (.laser 0 0), .collision (.laser 0 1)]).enemyGroup = 0 ∧
    reported (run idleHost smallScene [.collision (.laser 0 0), .collision (.laser 0 1)])
      (Event.collision (.player 1)) = false :=
  ⟨start_smallScene, by decide,
   (ended_round_reports_nothing idleHost smallScene
      [.collision (.laser 0 0), .collision (.laser 0 1)] start_smallScene
      (Or.inl (by decide))).1,
   (ended_round_reports_nothing idleHost smallScene
      [.collision (.laser 0 0), .collision (.laser 0 1)] start_smallScene
      (Or.inl (by decide))).2.1 (.player 1)⟩

theorem fire_on_fresh_press_witness :
    spaceDown (beforeUpdate idleHost (ticks idleHost smallScene [quietFrame, pressFrame])
      repressFrame) = true ∧
    spaceRelease ∈ repressFrame.keys ∧
    0 < (beforeUpdate idleHost (ticks idleHost smallScene [quietFrame, pressFrame])
      repressFrame).lives ∧
    (tick idleHost (ticks idleHost smallScene [quietFrame, pressFrame]) repressFrame).calls =
      (beforeUpdate idleHost (ticks idleHost smallScene [quietFrame, pressFrame])
        repressFrame).calls ++ [Call.fireLaser, Call.play "playerLaser"] ∧
    spaceRelease ∉ repeatFrame.keys ∧
    spaceDown (ticks idleHost smallScene [quietFrame, pressFrame]) = true ∧
    ¬ ((tick idleHost (ticks idleHost smallScene [quietFrame, pressFrame]) repeatFrame).calls =
      (beforeUpdate idleHost (ticks idleHost smallScene [quietFrame, pressFrame])
        repeatFrame).calls ++ [Call.fireLaser, Call.play "playerLaser"]) ∧
    (∀ g ∈ [pressFrame, quietFrame, pressFrame, repeatFrame, quietFrame],
      spaceRelease ∉ g.keys) ∧
    fireCount (ticks idleHost smallScene
      [pressFrame, quietFrame, pressFrame, repeatFrame, quietFrame]).calls
        ≤ fireCount smallScene.calls + 1 :=
  ⟨by decide, by decide, by decide,
   (fire_on_fresh_press idleHost [sprite 300 650] [sprite 100 100, sprite 200 100]
      [quietFrame, pressFrame] repressFrame _ _ rfl rfl).2.1.2
      ⟨by decide, Or.inr (by decide), by decide⟩,
   by decide, by decide,
   fun hfire =>
     absurd (((fire_on_fresh_press idleHost [sprite 300 650]
       [sprite 100 100, sprite 200 100] [quietFrame, pressFrame] repeatFrame _ _ rfl
       rfl).2.2.2.2.2.1 (by decide)).1 hfire).2.1 (by decide),
   by decide,
   (fire_on_fresh_press idleHost [sprite 300 650] [sprite 100 100, sprite 200 100]
      [quietFrame, pressFrame] repressFrame _ _ rfl rfl).2.2.2.2.2.2.2.2.1 smallScene
      [pressFrame, quietFrame, pressFrame, repeatFrame, quietFrame] (by decide)⟩

end SpaceGame
